import Mathlib

/-!
Verification of the core logic of a school-administration backend:
admission-number generation with a Luhn check digit, student enrollment
with sibling-flag computation, transaction/fee validation, and the
profile-update orchestration flow.

Python strings are modelled as lists of characters (`PyStr`); `Decimal`
amounts with two fractional places are modelled as scaled integers
(`Int`), on which Python `Decimal` comparison is exact equality; database
rows are modelled as Lean structures with non-null foreign keys inlined;
the process environment variable `SCHOOL_CODE` is an explicit
`Option PyStr` argument; the cryptographically secure random digit source
`secrets.choice("0123456789")` is an explicit `Nat → Fin 10` argument
giving the digit chosen at each position.
-/

namespace SchoolCore

/-- A Python string, modelled as its list of characters. -/
abbrev PyStr := List Char

/-- Python `str.isdigit()` restricted to ASCII strings: non-empty and all
characters in the range `'0'..'9'` (embedding `core_apps/student/utils.py`
usage, where the school code is an ASCII digit string). -/
def pyIsdigit (s : PyStr) : Bool := !s.isEmpty && s.all Char.isDigit

/-- The decimal digits of `n`, most significant first, as produced by
Python `str(n)` followed by per-character `int` conversion
(`split_into_digits` applied to an `int`, `utils.py` lines 31-32).
Implemented with a structurally decreasing fuel so that it evaluates by
kernel reduction. -/
def natDigitsGo : Nat → Nat → List Nat → List Nat
  | 0, _, acc => acc
  | fuel + 1, n, acc =>
    if n < 10 then n :: acc else natDigitsGo fuel (n / 10) (n % 10 :: acc)

/-- `split_into_digits` on an integer argument (`utils.py` lines 31-32):
the decimal digits of `n`, most significant first; `0` yields `[0]`. -/
def splitNatIntoDigits (n : Nat) : List Nat := natDigitsGo (n + 1) n []

/-- `split_into_digits` on a string argument (`utils.py` lines 31-32,
applied to `number` at line 34): each character converted with `int`. -/
def splitStrIntoDigits (s : PyStr) : List Nat := s.map (fun c => c.toNat - 48)

/-- Every other element of a list, starting with the first: the Python
slice `l[0::2]`.  `digits[-1::-2]` is `everyOther digits.reverse` and
`digits[-2::-2]` is `everyOther (digits.reverse.drop 1)`. -/
def everyOther {α : Type} : List α → List α
  | [] => []
  | [a] => [a]
  | a :: _ :: rest => a :: everyOther rest

/-- `calculate_luhn_check_digit` (`utils.py` lines 30-43): digits read
right-to-left; digits at odd positions from the right summed directly,
digits at even positions doubled with two-digit doubles digit-summed;
check digit `(10 - total % 10) % 10`. -/
def calculate_luhn_check_digit (number : PyStr) : Nat :=
  let digits := splitStrIntoDigits number
  let odd_digits := everyOther digits.reverse
  let even_digits := everyOther (digits.reverse.drop 1)
  let total :=
    odd_digits.sum + (even_digits.map (fun d => (splitNatIntoDigits (d * 2)).sum)).sum
  (10 - total % 10) % 10

/-- The character for digit `d` (how `secrets.choice("0123456789")` and
Python string formatting render a digit `d < 10`). -/
def digitChar (d : Nat) : Char := Char.ofNat (48 + d)

/-- Error message for an unset or non-numeric `SCHOOL_CODE`
(`utils.py` line 13; quotes elided from the literal). -/
def msgSchoolCode : String := "SCHOOL_CODE must be set and numeric."

/-- Error message for a school code leaving no digit budget
(`utils.py` line 19). -/
def msgSchoolCodeTooLong : String :=
  "SCHOOL_CODE too long for the configured admission number length."

/-- The `n` random fill digits drawn from the secure random source
(`utils.py` lines 21-23): the digit chosen at each position `i` is
`rand i`. -/
def admissionFill (rand : Nat → Fin 10) (n : Nat) : PyStr :=
  (List.range n).map (fun i => digitChar (rand i))

/-- The partial admission number (`utils.py` line 24): institution-code
prefix followed by the random fill for the remaining digit budget. -/
def admissionBody (rand : Nat → Fin 10) (code : PyStr) (total_length : Nat) : PyStr :=
  code ++ admissionFill rand ((total_length : Int) - code.length - 1).toNat

/-- `generate_admission_number` (`utils.py` lines 10-27).  The environment
variable `SCHOOL_CODE` is passed as `school_code`; the secure random
source is passed as `rand` (digit chosen at each fill position).  Raised
`ValueError`s become `Except.error`. -/
def generate_admission_number (rand : Nat → Fin 10) (school_code : Option PyStr)
    (total_length : Nat) : Except String PyStr :=
  match school_code with
  | none => .error msgSchoolCode
  | some code =>
    if !pyIsdigit code then .error msgSchoolCode
    else
      let remaining_digits : Int := (total_length : Int) - code.length - 1
      if remaining_digits ≤ 0 then .error msgSchoolCodeTooLong
      else
        let partNumber := code ++ admissionFill rand remaining_digits.toNat
        let check_digit := calculate_luhn_check_digit partNumber
        .ok (partNumber ++ [digitChar check_digit])

/-! ## Transaction ledger (`core_apps/student/models.py`)

Database rows are modelled with their non-null foreign keys inlined: a
persisted `TransactionItem` always has a fee, and a persisted fee always
has a student (both columns are `NOT NULL`), so the truthiness guards
`ti.fee and ti.fee.student` of `models.py` line 166 are identically true
on the modelled states.  Users are identified by primary key. -/

/-- A user as seen by `Transaction.clean`: primary key and `role`
attribute. -/
structure UserM where
  id : Nat
  role : String
deriving DecidableEq

/-- The student a fee row points at, reduced to its owning parent
(`Student.parent`, a user primary key). -/
structure StudentFK where
  parent : Nat
deriving DecidableEq

/-- The fee a transaction item points at, reduced to its student. -/
structure FeeFK where
  student : StudentFK
deriving DecidableEq

/-- A `TransactionItem` row: primary key, fee reference, and amount
(`Decimal` scaled to an integer). -/
structure TransactionItemM where
  id : Nat
  fee : FeeFK
  amount : Int
deriving DecidableEq

/-- A `Transaction` as seen by `clean`: `payer` and `amount` keep the
in-memory nullability of the source (`if self.payer`,
`if self.amount is not None`); `persisted` is `self.pk` existing, and
`items` the related `TransactionItem` rows. -/
structure TransactionM where
  payer : Option UserM
  amount : Option Int
  persisted : Bool
  items : List TransactionItemM
deriving DecidableEq

/-- `models.py` line 152 (quotes elided from the literal). -/
def msgPayer : String := "Payer must have role Parent."

/-- `models.py` line 156. -/
def msgAmount : String := "Amount must be greater than 0."

/-- `models.py` line 161. -/
def msgItems : String := "At least one fee item must be added to the transaction."

/-- `models.py` line 164. -/
def msgItemsAmount : String := "Sum of item amounts must equal the transaction amount."

/-- `models.py` line 168. -/
def msgItemsOwner : String := "All fee items must belong to students of the payer."

/-- Condition of `models.py` line 151: a payer is present and its role
differs from `"parent"` (the `User.RoleChoices.PARENT` value). -/
def payerRuleViolated (t : TransactionM) : Bool :=
  match t.payer with
  | some p => p.role != "parent"
  | none => false

/-- Condition of `models.py` line 155: the amount is present and
`≤ 0`. -/
def amountRuleViolated (t : TransactionM) : Bool :=
  match t.amount with
  | some a => decide (a ≤ 0)
  | none => false

/-- `items.aggregate(total=Sum("amount"))` of `models.py` line 162: the
SQL `SUM` aggregate, which is `NULL` over the empty set and the exact sum
otherwise. -/
def itemsAgg (t : TransactionM) : Option Int :=
  if t.items = [] then none else some (t.items.map (fun i => i.amount)).sum

/-- Condition of `models.py` line 163: `total is None or
total != self.amount`. -/
def itemsAmountRuleViolated (t : TransactionM) : Bool :=
  decide (itemsAgg t = none) || decide (itemsAgg t ≠ t.amount)

/-- The filter of `models.py` line 166 for one item: the item fee's
student's parent differs from the payer (object comparison by primary
key; a missing payer compares unequal to every user). -/
def itemOwnerMismatch (t : TransactionM) (ti : TransactionItemM) : Bool :=
  match t.payer with
  | none => true
  | some p => ti.fee.student.parent != p.id

/-- `invalid` of `models.py` line 166: the violating items. -/
def invalidItems (t : TransactionM) : List TransactionItemM :=
  t.items.filter (itemOwnerMismatch t)

/-- The `errors` mapping built by `Transaction.clean` (`models.py` lines
148-169), in insertion order; the item checks run only when the row is
persisted (`if self.pk`). -/
def cleanErrors (t : TransactionM) : List (String × String) :=
  (if payerRuleViolated t then [("payer", msgPayer)] else []) ++
  (if amountRuleViolated t then [("amount", msgAmount)] else []) ++
  (if t.persisted then
      (if t.items.isEmpty then [("items", msgItems)] else []) ++
      (if itemsAmountRuleViolated t then [("items_amount", msgItemsAmount)] else []) ++
      (if !(invalidItems t).isEmpty then [("items_owner", msgItemsOwner)] else [])
    else [])

/-- `Transaction.clean` (`models.py` lines 148-170): raises a single
`ValidationError` carrying the whole `errors` mapping when it is
non-empty, and returns normally otherwise. -/
def clean (t : TransactionM) : Except (List (String × String)) Unit :=
  if cleanErrors t = [] then .ok () else .error (cleanErrors t)

/-- The field names carrying an error after validation. -/
def errorFields (t : TransactionM) : List String := (cleanErrors t).map Prod.fst

/-! ## Student enrollment (`core_apps/student/utils.py` lines 46-94) -/

/-- The parent user as seen by `create_student_account`: primary key and
`last_name` attribute (used for the last-name default). -/
structure UserRec where
  id : Nat
  last_name : String
deriving DecidableEq

/-- A `Student` row with the fields touched by the core logic
(`models.py` lines 15-64). -/
structure StudentRec where
  parent : Nat
  admission_number : PyStr
  has_sibling : Bool
  first_name : String
  last_name : String
  gender : String
  account_status : String
  fully_activated : Bool
deriving DecidableEq

/-- Python `str.strip()`: surrounding whitespace removed. -/
def pyStrip (l : List Char) : List Char :=
  ((l.dropWhile Char.isWhitespace).reverse.dropWhile Char.isWhitespace).reverse

/-- Python `str.title()` on ASCII text: the first character of each
alphabetic run upper-cased, the rest lower-cased; the second argument
records whether the previous character was alphabetic. -/
def pyTitleGo : List Char → Bool → List Char
  | [], _ => []
  | c :: rest, prevAlpha =>
    (if c.isAlpha then (if prevAlpha then c.toLower else c.toUpper) else c)
      :: pyTitleGo rest c.isAlpha

/-- `name.strip().title()` as applied at `utils.py` lines 82-83. -/
def pyStripTitle (s : String) : String := String.mk (pyTitleGo (pyStrip s.data) false)

/-- The allowed gender choice values (`models.py` lines 16-19). -/
def genderValues : List String := ["male", "female", "other"]

/-- `utils.py` line 69 (quotes and sorting notation elided from the
literal). -/
def msgInvalidGender : String := "Invalid gender value. Allowed: [female, male, other]"

/-- The retry loop of `utils.py` lines 75-89: generate an admission
number for the current attempt; a `ValueError` from the generator
propagates out (only `IntegrityError` is caught); a number already taken
(unique-constraint violation on insert) causes a retry with the next
attempt.  The source loop is unbounded; `fuel` bounds the modelled
unrolling, with `none` standing for a run that never escaped the loop
within the modelled budget. -/
def acquireAdmission (taken : List PyStr) (gen : Nat → Except String PyStr) :
    Nat → Nat → Option (Except String PyStr)
  | _, 0 => none
  | attempt, fuel + 1 =>
    match gen attempt with
    | .error e => some (.error e)
    | .ok num =>
      if num ∈ taken then acquireAdmission taken gen (attempt + 1) fuel
      else some (.ok num)

/-- `create_student_account` (`utils.py` lines 46-94).  The student table
is the explicit `store`; the result pairs the updated store with the
created row.  `some (.error e)` is a raised `ValueError`; `none` is a run
that never escaped the collision-retry loop within the modelled fuel.
The deferred post-commit email is out of scope (a notification sink). -/
def create_student_account (store : List StudentRec) (user : UserRec)
    (school_code : Option PyStr) (rand : Nat → Nat → Fin 10) (fuel : Nat)
    (first_name0 last_name0 gender0 : Option String) :
    Option (Except String (List StudentRec × StudentRec)) :=
  let first_name := match first_name0 with
    | none => "Student"
    | some s => if s = "" then "Student" else s
  let defaulted_last := if user.last_name = "" then "Account" else user.last_name
  let last_name := match last_name0 with
    | none => defaulted_last
    | some s => if s = "" then defaulted_last else s
  let gender := match gender0 with
    | none => "other"
    | some s => if s = "" then "other" else s
  if gender ∈ genderValues then
    let has_sibling := store.any (fun r => r.parent == user.id)
    match acquireAdmission (store.map (fun r => r.admission_number))
        (fun attempt => generate_admission_number (rand attempt) school_code 16) 0 fuel with
    | none => none
    | some (.error e) => some (.error e)
    | some (.ok num) =>
      let created : StudentRec :=
        { parent := user.id
          admission_number := num
          has_sibling := has_sibling
          first_name := pyStripTitle first_name
          last_name := pyStripTitle last_name
          gender := gender
          account_status := "in-active"
          fully_activated := false }
      some (.ok (store ++ [created], created))
  else some (.error msgInvalidGender)

/-! ## Profile update orchestration (`core_apps/user_profile/views.py`
lines 89-136)

The profile model and serializer live outside the analysed sources; the
profile is therefore an abstract type `P`, the serializer validation
outcome an explicit boolean, and the saved profile value an explicit
argument.  `with transaction.atomic()` together with the `except`
handlers outside the block means an exception escaping the block rolls
back every write made inside it; the model returns the entry state in
that case. -/

/-- The four observable outcomes of `ProfileDetailAPIView.update`:
success without / with a created student (distinct response messages),
a serializer validation failure, and a generic exception converted to a
400 response. -/
inductive UpdateOutcome where
  | okUpdated : UpdateOutcome
  | okCreated : StudentRec → UpdateOutcome
  | invalidProfile : UpdateOutcome
  | errorResp : String → UpdateOutcome
deriving DecidableEq

/-- The persistent state touched by the flow: the caller's profile and
the student table. -/
structure AppState (P : Type) where
  profile : P
  students : List StudentRec
deriving DecidableEq

/-- `views.py` lines 116-118: after a nested creation, set
`has_sibling = True` on every student of the parent, but only when the
parent now has more than one student. -/
def recomputeSiblings (store : List StudentRec) (parentId : Nat) : List StudentRec :=
  if 1 < (store.filter (fun r => r.parent == parentId)).length then
    store.map (fun r => if r.parent == parentId then { r with has_sibling := true } else r)
  else store

/-- `ProfileDetailAPIView.update` (`views.py` lines 89-136): serializer
validation, then an atomic unit saving the profile and optionally
creating a student and recomputing sibling flags; an exception inside the
atomic unit rolls the state back to `st`. -/
def profileUpdate {P : Type} (st : AppState P) (profileValid : Bool) (newProfile : P)
    (create_student : Bool) (first_name0 last_name0 gender0 : Option String)
    (user : UserRec) (school_code : Option PyStr) (rand : Nat → Nat → Fin 10)
    (fuel : Nat) : Option (UpdateOutcome × AppState P) :=
  if !profileValid then some (.invalidProfile, st)
  else
    let saved : AppState P := { st with profile := newProfile }
    if create_student then
      match create_student_account saved.students user school_code rand fuel
          first_name0 last_name0 gender0 with
      | none => none
      | some (.error e) => some (.errorResp e, st)
      | some (.ok (students1, created)) =>
        some (.okCreated created,
          { profile := newProfile, students := recomputeSiblings students1 user.id })
    else some (.okUpdated, saved)

/-! ## Concrete states used by counterexamples and witnesses -/

/-- A parent user with role `"parent"`. -/
def uParent : UserM := { id := 1, role := "parent" }

/-- A persisted transaction with the default declared amount `0.00` and
no line items: the empty aggregate sum is `NULL`, yet the (empty) sum of
its line-item amounts, `0`, equals the declared amount. -/
def tC2 : TransactionM :=
  { payer := some uParent, amount := some 0, persisted := true, items := [] }

/-- A persisted transaction whose single item belongs to a student of
parent `2`, not of the payer (parent `1`). -/
def tC3a : TransactionM :=
  { payer := some uParent, amount := some 500, persisted := true,
    items := [{ id := 101, fee := { student := { parent := 2 } }, amount := 500 }] }

/-- Like `tC3a` but with a different violating item (primary key `202`,
owning parent `3`). -/
def tC3b : TransactionM :=
  { payer := some uParent, amount := some 500, persisted := true,
    items := [{ id := 202, fee := { student := { parent := 3 } }, amount := 500 }] }

/-- The spec's passing scenario: a persisted transaction by a parent
payer of `100.00` (scaled: `10000`) with two items `40.00 + 60.00`, both
on fees of students owned by the payer. -/
def tGood : TransactionM :=
  { payer := some uParent, amount := some 10000, persisted := true,
    items := [{ id := 11, fee := { student := { parent := 1 } }, amount := 4000 },
              { id := 12, fee := { student := { parent := 1 } }, amount := 6000 }] }

/-- A concrete two-digit institution code used by witnesses. -/
def code12 : PyStr := ['1', '2']

/-- A concrete parent user used by enrollment witnesses. -/
def wUser : UserRec := { id := 7, last_name := "Doe" }

/-- The student record created for `wUser` on an empty store with school
code `"12"` and the all-zeros random source: admission number
`"12" ++ "0" * 13` plus check digit `5`. -/
def wRec1 : StudentRec :=
  { parent := 7
    admission_number :=
      ['1', '2', '0', '0', '0', '0', '0', '0', '0', '0', '0', '0', '0', '0', '0', '5']
    has_sibling := false
    first_name := "Student"
    last_name := "Doe"
    gender := "other"
    account_status := "in-active"
    fully_activated := false }

/-- The student record created for `wUser` on the store `[wRec1]` with
the all-ones random source: admission number `"12" ++ "1" * 13` plus
check digit `6`, and the sibling flag now set. -/
def wRec2 : StudentRec :=
  { parent := 7
    admission_number :=
      ['1', '2', '1', '1', '1', '1', '1', '1', '1', '1', '1', '1', '1', '1', '1', '6']
    has_sibling := true
    first_name := "Student"
    last_name := "Doe"
    gender := "other"
    account_status := "in-active"
    fully_activated := false }

/-! ## Helper lemmas -/

theorem luhn_lt_ten (s : PyStr) : calculate_luhn_check_digit s < 10 := by
  simp only [calculate_luhn_check_digit]
  omega

theorem digitChar_isDigit {d : Nat} (h : d < 10) : (digitChar d).isDigit = true := by
  interval_cases d <;> rfl

theorem digitChar_toNat {d : Nat} (h : d < 10) : (digitChar d).toNat - 48 = d := by
  interval_cases d <;> rfl

theorem generate_ok (rand : Nat → Fin 10) (code : PyStr) (total_length : Nat)
    (hcode : pyIsdigit code = true)
    (hlen : 0 < (total_length : Int) - code.length - 1) :
    generate_admission_number rand (some code) total_length =
      .ok (admissionBody rand code total_length ++
        [digitChar (calculate_luhn_check_digit (admissionBody rand code total_length))]) := by
  have hneg : ¬ ((total_length : Int) - (code.length : Int) - 1 ≤ 0) := by omega
  simp only [generate_admission_number, admissionBody, hcode, Bool.not_true,
    Bool.false_eq_true, if_false, if_neg hneg]

theorem payerRuleViolated_iff (t : TransactionM) :
    payerRuleViolated t = true ↔ ∃ p, t.payer = some p ∧ p.role ≠ "parent" := by
  cases h : t.payer <;> simp [payerRuleViolated, h]

theorem amountRuleViolated_iff (t : TransactionM) :
    amountRuleViolated t = true ↔ ∃ a, t.amount = some a ∧ a ≤ 0 := by
  cases h : t.amount <;> simp [amountRuleViolated, h]

theorem itemsAmountRuleViolated_iff (t : TransactionM) :
    itemsAmountRuleViolated t = true ↔
      (t.items = [] ∨ t.amount ≠ some ((t.items.map (fun i => i.amount)).sum)) := by
  by_cases hi : t.items = []
  · simp [itemsAmountRuleViolated, itemsAgg, hi]
  · simp [itemsAmountRuleViolated, itemsAgg, hi]
    exact ne_comm

theorem itemOwnerMismatch_iff (t : TransactionM) (ti : TransactionItemM) :
    itemOwnerMismatch t ti = true ↔
      ∀ p, t.payer = some p → ti.fee.student.parent ≠ p.id := by
  cases h : t.payer <;> simp [itemOwnerMismatch, h]

theorem invalidItems_ne_nil_iff (t : TransactionM) :
    (invalidItems t).isEmpty = false ↔
      ∃ ti ∈ t.items, ∀ p, t.payer = some p → ti.fee.student.parent ≠ p.id := by
  simp [invalidItems, List.isEmpty_iff, List.filter_eq_nil_iff, itemOwnerMismatch_iff]

theorem pair_mem_cleanErrors (t : TransactionM) (f m : String) :
    (f, m) ∈ cleanErrors t ↔
      (payerRuleViolated t = true ∧ f = "payer" ∧ m = msgPayer) ∨
      (amountRuleViolated t = true ∧ f = "amount" ∧ m = msgAmount) ∨
      (t.persisted = true ∧ t.items.isEmpty = true ∧ f = "items" ∧ m = msgItems) ∨
      (t.persisted = true ∧ itemsAmountRuleViolated t = true ∧
        f = "items_amount" ∧ m = msgItemsAmount) ∨
      (t.persisted = true ∧ (invalidItems t).isEmpty = false ∧
        f = "items_owner" ∧ m = msgItemsOwner) := by
  unfold cleanErrors
  cases hp : t.persisted <;>
    cases h1 : payerRuleViolated t <;>
      cases h2 : amountRuleViolated t <;>
        cases h3 : t.items.isEmpty <;>
          cases h4 : itemsAmountRuleViolated t <;>
            cases h5 : (invalidItems t).isEmpty <;>
              simp

theorem mem_errorFields (t : TransactionM) (f : String) :
    f ∈ errorFields t ↔ ∃ m, (f, m) ∈ cleanErrors t := by
  simp only [errorFields, List.mem_map]
  constructor
  · rintro ⟨⟨f0, m0⟩, hmem, rfl⟩
    exact ⟨m0, hmem⟩
  · rintro ⟨m, hm⟩
    exact ⟨(f, m), hm, rfl⟩

theorem payer_field_iff (t : TransactionM) :
    "payer" ∈ errorFields t ↔ payerRuleViolated t = true := by
  rw [mem_errorFields]
  simp [pair_mem_cleanErrors]

theorem amount_field_iff (t : TransactionM) :
    "amount" ∈ errorFields t ↔ amountRuleViolated t = true := by
  rw [mem_errorFields]
  simp [pair_mem_cleanErrors]

theorem items_field_iff (t : TransactionM) :
    "items" ∈ errorFields t ↔ t.persisted = true ∧ t.items.isEmpty = true := by
  rw [mem_errorFields]
  simp [pair_mem_cleanErrors]

theorem items_amount_field_iff (t : TransactionM) :
    "items_amount" ∈ errorFields t ↔
      t.persisted = true ∧ itemsAmountRuleViolated t = true := by
  rw [mem_errorFields]
  simp [pair_mem_cleanErrors]

theorem items_owner_field_iff (t : TransactionM) :
    "items_owner" ∈ errorFields t ↔
      t.persisted = true ∧ (invalidItems t).isEmpty = false := by
  rw [mem_errorFields]
  simp [pair_mem_cleanErrors]

theorem invalidItems_isEmpty_false_iff_payer (t : TransactionM) (p : UserM)
    (hpay : t.payer = some p) :
    (invalidItems t).isEmpty = false ↔
      ∃ ti ∈ t.items, ti.fee.student.parent ≠ p.id := by
  rw [invalidItems_ne_nil_iff]
  constructor
  · rintro ⟨ti, hti, h⟩
    exact ⟨ti, hti, h p hpay⟩
  · rintro ⟨ti, hti, h⟩
    refine ⟨ti, hti, fun q hq => ?_⟩
    rw [hpay] at hq
    cases hq
    exact h

/-! ## Claim theorems: transaction ledger -/

/-- C4: `Transaction.clean` evaluates every rule — payer role is
`"parent"`, amount strictly positive, and, for a persisted row, at least
one item, exact item-sum equality, and item ownership — without
short-circuiting; on any violation it raises a single `ValidationError`
carrying the mapping that pairs exactly each violated field name with its
message, and when no rule is violated it raises nothing. -/
theorem claim_C4_aggregated_validation (t : TransactionM) :
    (clean t = .ok () ↔
      ¬ (∃ p, t.payer = some p ∧ p.role ≠ "parent") ∧
      ¬ (∃ a, t.amount = some a ∧ a ≤ 0) ∧
      ¬ (t.persisted = true ∧ t.items = []) ∧
      ¬ (t.persisted = true ∧
          (t.items = [] ∨ t.amount ≠ some ((t.items.map (fun i => i.amount)).sum))) ∧
      ¬ (t.persisted = true ∧
          ∃ ti ∈ t.items, ∀ p, t.payer = some p → ti.fee.student.parent ≠ p.id)) ∧
    (clean t = .error (cleanErrors t) ↔
      ((∃ p, t.payer = some p ∧ p.role ≠ "parent") ∨
       (∃ a, t.amount = some a ∧ a ≤ 0) ∨
       (t.persisted = true ∧ t.items = []) ∨
       (t.persisted = true ∧
         (t.items = [] ∨ t.amount ≠ some ((t.items.map (fun i => i.amount)).sum))) ∨
       (t.persisted = true ∧
         ∃ ti ∈ t.items, ∀ p, t.payer = some p → ti.fee.student.parent ≠ p.id))) ∧
    (("payer", msgPayer) ∈ cleanErrors t ↔
      ∃ p, t.payer = some p ∧ p.role ≠ "parent") ∧
    (("amount", msgAmount) ∈ cleanErrors t ↔
      ∃ a, t.amount = some a ∧ a ≤ 0) ∧
    (("items", msgItems) ∈ cleanErrors t ↔
      t.persisted = true ∧ t.items = []) ∧
    (("items_amount", msgItemsAmount) ∈ cleanErrors t ↔
      t.persisted = true ∧
        (t.items = [] ∨ t.amount ≠ some ((t.items.map (fun i => i.amount)).sum))) ∧
    (("items_owner", msgItemsOwner) ∈ cleanErrors t ↔
      t.persisted = true ∧
        ∃ ti ∈ t.items, ∀ p, t.payer = some p → ti.fee.student.parent ≠ p.id) := by
  rw [← payerRuleViolated_iff t, ← amountRuleViolated_iff t,
    ← itemsAmountRuleViolated_iff t, ← invalidItems_ne_nil_iff t]
  unfold clean
  cases hp : t.persisted <;>
    cases h1 : payerRuleViolated t <;>
      cases h2 : amountRuleViolated t <;>
        cases h3 : t.items.isEmpty <;>
          cases h4 : itemsAmountRuleViolated t <;>
            cases h5 : (invalidItems t).isEmpty <;>
              simp_all [cleanErrors, pair_mem_cleanErrors, List.isEmpty_iff]

/-- C2 counterexample: the claim "an `items_amount` error is reported if
and only if the sum of the line-item amounts is not exactly equal to the
declared amount" fails on the persisted transaction `tC2` with no line
items and the default declared amount `0.00`: the (empty) sum of its
line-item amounts equals the declared amount, yet the aggregate is `NULL`
and the error is reported. -/
theorem claim_C2_counterexample :
    ¬ (("items_amount" ∈ errorFields tC2) ↔
        tC2.amount ≠ some ((tC2.items.map (fun i => i.amount)).sum)) := by
  decide

/-- C2 (amended): for a persisted transaction with declared amount `a`,
an `items_amount` error is reported if and only if the transaction has no
line items (the `NULL` aggregate counts as unequal to every amount) or
the sum of line-item amounts differs from `a`; when the sums are exactly
equal and at least one item exists, no `items_amount` error is reported,
and a mismatch never suppresses the other checks, whose outcomes are
exactly their own rules. -/
theorem claim_C2_amended (t : TransactionM) (a : Int)
    (hp : t.persisted = true) (ha : t.amount = some a) :
    ("items_amount" ∈ errorFields t ↔
      (t.items = [] ∨ (t.items.map (fun i => i.amount)).sum ≠ a)) ∧
    ("payer" ∈ errorFields t ↔ ∃ p, t.payer = some p ∧ p.role ≠ "parent") ∧
    ("amount" ∈ errorFields t ↔ a ≤ 0) ∧
    ("items" ∈ errorFields t ↔ t.items = []) ∧
    ("items_owner" ∈ errorFields t ↔
      ∃ ti ∈ t.items, ∀ p, t.payer = some p → ti.fee.student.parent ≠ p.id) := by
  refine ⟨?_, ?_, ?_, ?_, ?_⟩
  · rw [items_amount_field_iff, itemsAmountRuleViolated_iff, ha]
    simp only [hp, true_and, ne_eq, Option.some.injEq]
    exact or_congr Iff.rfl (not_congr eq_comm)
  · rw [payer_field_iff, payerRuleViolated_iff]
  · rw [amount_field_iff, amountRuleViolated_iff]
    simp [ha]
  · rw [items_field_iff]
    simp [hp, List.isEmpty_iff]
  · rw [items_owner_field_iff]
    simp only [hp, eq_self_iff_true, true_and]
    exact invalidItems_ne_nil_iff t

/-- Witness for C2 (amended): the spec scenario of a payer-owned
transaction of amount `100.00` with two items `40.00 + 60.00`; the sums
match, so no `items_amount` error is reported, and no other check
fires. -/
theorem claim_C2_witness :
    (tGood.persisted = true ∧ tGood.amount = some 10000) ∧
    (("items_amount" ∈ errorFields tGood ↔
      (tGood.items = [] ∨ (tGood.items.map (fun i => i.amount)).sum ≠ 10000)) ∧
    ("payer" ∈ errorFields tGood ↔ ∃ p, tGood.payer = some p ∧ p.role ≠ "parent") ∧
    ("amount" ∈ errorFields tGood ↔ (10000 : Int) ≤ 0) ∧
    ("items" ∈ errorFields tGood ↔ tGood.items = []) ∧
    ("items_owner" ∈ errorFields tGood ↔
      ∃ ti ∈ tGood.items, ∀ p, tGood.payer = some p → ti.fee.student.parent ≠ p.id)) :=
  ⟨⟨rfl, rfl⟩, claim_C2_amended tGood 10000 rfl rfl⟩

/-- C3 counterexample: the `items_owner` error does not list (name) the
violating items — `tC3a` and `tC3b` have different violating items
(different primary keys and owners), yet their `items_owner` errors are
the same fixed message. -/
theorem claim_C3_counterexample :
    invalidItems tC3a ≠ invalidItems tC3b ∧
    invalidItems tC3a ≠ [] ∧ invalidItems tC3b ≠ [] ∧
    (cleanErrors tC3a).filter (fun e => e.1 == "items_owner") =
      (cleanErrors tC3b).filter (fun e => e.1 == "items_owner") ∧
    (cleanErrors tC3a).filter (fun e => e.1 == "items_owner") =
      [("items_owner", msgItemsOwner)] := by
  decide

/-- C3 (amended): for a persisted transaction with payer `p`, an
`items_owner` error is reported if and only if at least one line item's
fee belongs to a student whose owning parent is not `p`; the error
carries the fixed message `msgItemsOwner` and does not vary with (hence
does not list) the violating items. -/
theorem claim_C3_amended (t : TransactionM) (p : UserM)
    (hp : t.persisted = true) (hpay : t.payer = some p) :
    ("items_owner" ∈ errorFields t ↔ ∃ ti ∈ t.items, ti.fee.student.parent ≠ p.id) ∧
    ((cleanErrors t).filter (fun e => e.1 == "items_owner") =
      if ∃ ti ∈ t.items, ti.fee.student.parent ≠ p.id
      then [("items_owner", msgItemsOwner)] else []) := by
  have hmem : "items_owner" ∈ errorFields t ↔
      ∃ ti ∈ t.items, ti.fee.student.parent ≠ p.id := by
    rw [items_owner_field_iff, invalidItems_isEmpty_false_iff_payer t p hpay]
    simp [hp]
  refine ⟨hmem, ?_⟩
  by_cases hv : ∃ ti ∈ t.items, ti.fee.student.parent ≠ p.id
  · rw [if_pos hv]
    have hne : (invalidItems t).isEmpty = false :=
      (invalidItems_isEmpty_false_iff_payer t p hpay).mpr hv
    unfold cleanErrors
    cases h1 : payerRuleViolated t <;>
      cases h2 : amountRuleViolated t <;>
        cases h3 : t.items.isEmpty <;>
          cases h4 : itemsAmountRuleViolated t <;>
            simp_all [hp, hne]
  · rw [if_neg hv]
    have hne : (invalidItems t).isEmpty = true := by
      cases hE : (invalidItems t).isEmpty
      · exact absurd ((invalidItems_isEmpty_false_iff_payer t p hpay).mp hE) hv
      · rfl
    unfold cleanErrors
    cases h1 : payerRuleViolated t <;>
      cases h2 : amountRuleViolated t <;>
        cases h3 : t.items.isEmpty <;>
          cases h4 : itemsAmountRuleViolated t <;>
            simp_all [hp, hne]

/-- Witness for C3 (amended): `tC3a` with payer `uParent` — the single
item belongs to parent `2`, so the `items_owner` error is reported with
the fixed message. -/
theorem claim_C3_witness :
    (tC3a.persisted = true ∧ tC3a.payer = some uParent) ∧
    (("items_owner" ∈ errorFields tC3a ↔
      ∃ ti ∈ tC3a.items, ti.fee.student.parent ≠ uParent.id) ∧
    ((cleanErrors tC3a).filter (fun e => e.1 == "items_owner") =
      if ∃ ti ∈ tC3a.items, ti.fee.student.parent ≠ uParent.id
      then [("items_owner", msgItemsOwner)] else [])) :=
  ⟨⟨rfl, rfl⟩, claim_C3_amended tC3a uParent rfl rfl⟩

/-- C9: a persisted transaction with zero line items gets both an `items`
error and an `items_amount` error, because the aggregate sum over the
empty item set is `NULL` and `NULL` is treated as unequal to every
declared amount. -/
theorem claim_C9_empty_items (t : TransactionM)
    (hp : t.persisted = true) (hi : t.items = []) :
    "items" ∈ errorFields t ∧ "items_amount" ∈ errorFields t ∧ itemsAgg t = none := by
  refine ⟨?_, ?_, ?_⟩
  · simp only [mem_errorFields, pair_mem_cleanErrors, hp]
    simp [hi]
  · simp only [mem_errorFields, pair_mem_cleanErrors, hp]
    simp [hi, itemsAmountRuleViolated, itemsAgg]
  · simp [itemsAgg, hi]

/-- Witness for C9: the empty-items transaction `tC2`. -/
theorem claim_C9_witness :
    (tC2.persisted = true ∧ tC2.items = []) ∧
    ("items" ∈ errorFields tC2 ∧ "items_amount" ∈ errorFields tC2 ∧
      itemsAgg tC2 = none) :=
  ⟨⟨rfl, rfl⟩, claim_C9_empty_items tC2 rfl rfl⟩

/-! ## Claim theorems: identifier issuer -/

/-- C1: for every numeric institution code and every `total_length` with
`total_length - len(code) - 1 > 0`, `generate_admission_number` returns a
string of exactly `total_length` characters, all digits, beginning with
the institution code, whose last digit equals the Luhn check digit
(`calculate_luhn_check_digit`, which reads the preceding digits
right-to-left, sums digits at odd positions directly, doubles digits at
even positions digit-summing two-digit doubles, and returns
`(10 - total % 10) % 10`) of the preceding digits. -/
theorem claim_C1_admission_number (rand : Nat → Fin 10) (code : PyStr)
    (total_length : Nat) (hcode : pyIsdigit code = true)
    (hlen : 0 < (total_length : Int) - code.length - 1) :
    ∃ s : PyStr,
      generate_admission_number rand (some code) total_length = .ok s ∧
      s.length = total_length ∧
      s.all Char.isDigit = true ∧
      s.take code.length = code ∧
      s ≠ [] ∧
      (s.getLastD ' ').toNat - 48 = calculate_luhn_check_digit s.dropLast := by
  refine ⟨admissionBody rand code total_length ++
      [digitChar (calculate_luhn_check_digit (admissionBody rand code total_length))],
    generate_ok rand code total_length hcode hlen, ?_, ?_, ?_, ?_, ?_⟩
  · have htn : ((((total_length : Int) - code.length - 1).toNat : Int))
        = (total_length : Int) - code.length - 1 := Int.toNat_of_nonneg (by omega)
    simp only [admissionBody, admissionFill, List.length_append, List.length_map,
      List.length_range, List.length_singleton]
    omega
  · simp only [admissionBody, admissionFill, List.all_append, Bool.and_eq_true]
    refine ⟨⟨?_, ?_⟩, ?_⟩
    · exact ((Bool.and_eq_true _ _).mp hcode).2
    · rw [List.all_eq_true]
      intro c hc
      obtain ⟨i, _, rfl⟩ := List.mem_map.mp hc
      exact digitChar_isDigit (rand i).isLt
    · simp [digitChar_isDigit (luhn_lt_ten _)]
  · rw [admissionBody, List.append_assoc]
    exact List.take_left code _
  · simp
  · rw [List.getLastD_concat, List.dropLast_concat]
    exact digitChar_toNat (luhn_lt_ten _)

/-- Witness for C1: institution code `"12"` and total length `5` with the
all-zeros random source; the generated number is `"12006"`. -/
theorem claim_C1_witness :
    (pyIsdigit code12 = true ∧ 0 < (5 : Int) - code12.length - 1) ∧
    (∃ s : PyStr,
      generate_admission_number (fun _ => (0 : Fin 10)) (some code12) 5 = .ok s ∧
      s.length = 5 ∧
      s.all Char.isDigit = true ∧
      s.take code12.length = code12 ∧
      s ≠ [] ∧
      (s.getLastD ' ').toNat - 48 = calculate_luhn_check_digit s.dropLast) :=
  ⟨⟨by decide, by decide⟩,
    claim_C1_admission_number (fun _ => (0 : Fin 10)) code12 5 (by decide) (by decide)⟩

/-- C8: `generate_admission_number` fails (raises the configuration
`ValueError`), returning nothing, exactly when the institution code is
unset or non-numeric, or when `total_length - len(code) - 1 ≤ 0`; and
the enrollment retry loop surfaces a generator failure immediately on the
attempt that raised it — it retries only on a taken admission number,
never on a generator error. -/
theorem claim_C8_config_error :
    (∀ (rand : Nat → Fin 10) (school_code : Option PyStr) (total_length : Nat),
      (∃ e, generate_admission_number rand school_code total_length = .error e) ↔
        (school_code = none ∨
         (∃ code, school_code = some code ∧ pyIsdigit code = false) ∨
         (∃ code, school_code = some code ∧
            (total_length : Int) - code.length - 1 ≤ 0))) ∧
    (∀ (taken : List PyStr) (gen : Nat → Except String PyStr)
        (attempt fuel : Nat) (e : String),
      gen attempt = .error e →
        acquireAdmission taken gen attempt (fuel + 1) = some (.error e)) := by
  constructor
  · intro rand sc tl
    cases sc with
    | none => simp [generate_admission_number]
    | some code =>
      by_cases hd : pyIsdigit code = true
      · by_cases hr : (tl : Int) - code.length - 1 ≤ 0
        · constructor
          · intro _
            exact Or.inr (Or.inr ⟨code, rfl, hr⟩)
          · intro _
            refine ⟨msgSchoolCodeTooLong, ?_⟩
            simp only [generate_admission_number, hd, Bool.not_true,
              Bool.false_eq_true, if_false]
            rw [if_pos hr]
        · rw [generate_ok rand code tl hd (by omega)]
          simp [hd, hr]
          omega
      · rw [Bool.not_eq_true] at hd
        simp [generate_admission_number, hd]
  · intro taken gen attempt fuel e hgen
    simp [acquireAdmission, hgen]

/-- Witness for C8: an unset school code makes the generator fail with
the configuration message, and the retry loop surfaces the failure on the
first attempt even with fuel left. -/
theorem claim_C8_witness :
    ((fun _ : Nat =>
        generate_admission_number (fun _ => (0 : Fin 10)) none 16) 0 =
      .error msgSchoolCode) ∧
    acquireAdmission []
      (fun _ => generate_admission_number (fun _ => (0 : Fin 10)) none 16) 0 4 =
      some (.error msgSchoolCode) :=
  ⟨rfl,
    claim_C8_config_error.2 []
      (fun _ => generate_admission_number (fun _ => (0 : Fin 10)) none 16)
      0 3 msgSchoolCode rfl⟩

/-! ## Claim theorems: student enrollment -/

theorem create_ok_shape (store : List StudentRec) (user : UserRec)
    (school_code : Option PyStr) (rand : Nat → Nat → Fin 10) (fuel : Nat)
    (f0 l0 g0 : Option String) (store1 : List StudentRec) (s : StudentRec)
    (h : create_student_account store user school_code rand fuel f0 l0 g0 =
      some (.ok (store1, s))) :
    store1 = store ++ [s] ∧ s.parent = user.id ∧
      s.has_sibling = store.any (fun r => r.parent == user.id) ∧
      s.account_status = "in-active" ∧ s.fully_activated = false := by
  simp only [create_student_account] at h
  split at h
  · split at h
    · exact absurd h (by simp)
    · exact absurd h (by simp)
    · simp only [Option.some.injEq, Except.ok.injEq, Prod.mk.injEq] at h
      obtain ⟨hstore, hs⟩ := h
      subst hs
      exact ⟨hstore.symm, rfl, rfl, rfl, rfl⟩
  · exact absurd h (by simp)

/-- C5: the record created by `create_student_account` has
`has_sibling = true` exactly when the parent already owned at least one
student before the insert (a snapshot taken before the insert): a first
call for a parent with no prior students yields `has_sibling = false`, a
second call for the same parent yields `has_sibling = true`, and the
earlier record is left in place unchanged (`has_sibling` still `false`)
by this path. -/
theorem claim_C5_sibling_snapshot :
    (∀ (store : List StudentRec) (user : UserRec) (school_code : Option PyStr)
        (rand : Nat → Nat → Fin 10) (fuel : Nat) (f0 l0 g0 : Option String)
        (store1 : List StudentRec) (s : StudentRec),
      create_student_account store user school_code rand fuel f0 l0 g0 =
          some (.ok (store1, s)) →
        (s.has_sibling = true ↔ ∃ r ∈ store, r.parent = user.id)) ∧
    (∀ (store : List StudentRec) (user : UserRec) (school_code : Option PyStr)
        (rand1 rand2 : Nat → Nat → Fin 10) (fuel1 fuel2 : Nat)
        (f1 l1 g1 f2 l2 g2 : Option String)
        (store1 store2 : List StudentRec) (s1 s2 : StudentRec),
      (∀ r ∈ store, r.parent ≠ user.id) →
      create_student_account store user school_code rand1 fuel1 f1 l1 g1 =
          some (.ok (store1, s1)) →
      create_student_account store1 user school_code rand2 fuel2 f2 l2 g2 =
          some (.ok (store2, s2)) →
        s1.has_sibling = false ∧ s2.has_sibling = true ∧
          store2 = store ++ [s1] ++ [s2]) := by
  have key : ∀ (store : List StudentRec) (user : UserRec)
      (school_code : Option PyStr) (rand : Nat → Nat → Fin 10) (fuel : Nat)
      (f0 l0 g0 : Option String) (store1 : List StudentRec) (s : StudentRec),
      create_student_account store user school_code rand fuel f0 l0 g0 =
          some (.ok (store1, s)) →
        store1 = store ++ [s] ∧ s.parent = user.id ∧
          s.has_sibling = store.any (fun r => r.parent == user.id) :=
    fun store user sc rand fuel f0 l0 g0 store1 s h =>
      ⟨(create_ok_shape store user sc rand fuel f0 l0 g0 store1 s h).1,
       (create_ok_shape store user sc rand fuel f0 l0 g0 store1 s h).2.1,
       (create_ok_shape store user sc rand fuel f0 l0 g0 store1 s h).2.2.1⟩
  constructor
  · intro store user sc rand fuel f0 l0 g0 store1 s h
    rw [(key store user sc rand fuel f0 l0 g0 store1 s h).2.2, List.any_eq_true]
    simp
  · intro store user sc rand1 rand2 fuel1 fuel2 f1 l1 g1 f2 l2 g2 store1 store2 s1 s2
      h0 h1 h2
    obtain ⟨hst1, hp1, hs1⟩ := key store user sc rand1 fuel1 f1 l1 g1 store1 s1 h1
    obtain ⟨hst2, hp2, hs2⟩ := key store1 user sc rand2 fuel2 f2 l2 g2 store2 s2 h2
    have hany : store.any (fun r => r.parent == user.id) = false := by
      rw [List.any_eq_false]
      intro r hr
      simp [h0 r hr]
    have h1false : s1.has_sibling = false := by rw [hs1, hany]
    refine ⟨h1false, ?_, by rw [hst2, hst1]⟩
    rw [hs2, hst1]
    simp [hp1]

/-- Witness for C5: two enrollments for `wUser` starting from an empty
store; the first record has `has_sibling = false`, the second `true`, and
the first record is appended unchanged. -/
theorem claim_C5_witness :
    ((∀ r ∈ ([] : List StudentRec), r.parent ≠ wUser.id) ∧
      create_student_account [] wUser (some code12) (fun _ _ => 0) 1
          none none none = some (.ok ([wRec1], wRec1)) ∧
      create_student_account [wRec1] wUser (some code12) (fun _ _ => 1) 1
          none none none = some (.ok ([wRec1, wRec2], wRec2))) ∧
    (wRec1.has_sibling = false ∧ wRec2.has_sibling = true ∧
      [wRec1, wRec2] = [] ++ [wRec1] ++ [wRec2]) :=
  ⟨⟨by simp, rfl, rfl⟩,
    claim_C5_sibling_snapshot.2 [] wUser (some code12)
      (fun _ _ => 0) (fun _ _ => 1) 1 1 none none none none none none
      [wRec1] [wRec1, wRec2] wRec1 wRec2 (by simp) rfl rfl⟩

/-- C10: every student record created by `create_student_account` starts
with `account_status = "in-active"` and `fully_activated = false` (the
model defaults — the create call passes neither field), and enrollment
touches no other record: the store is only extended by the new inactive
row, so activation can only happen through the separate verification
workflow. -/
theorem claim_C10_inactive_defaults (store : List StudentRec) (user : UserRec)
    (school_code : Option PyStr) (rand : Nat → Nat → Fin 10) (fuel : Nat)
    (f0 l0 g0 : Option String) (store1 : List StudentRec) (s : StudentRec)
    (h : create_student_account store user school_code rand fuel f0 l0 g0 =
      some (.ok (store1, s))) :
    s.account_status = "in-active" ∧ s.fully_activated = false ∧
      store1 = store ++ [s] := by
  obtain ⟨h1, _, _, h4, h5⟩ :=
    create_ok_shape store user school_code rand fuel f0 l0 g0 store1 s h
  exact ⟨h4, h5, h1⟩

/-- Witness for C10: the record created for `wUser` on an empty store is
inactive and not fully activated. -/
theorem claim_C10_witness :
    create_student_account [] wUser (some code12) (fun _ _ => 0) 1
        none none none = some (.ok ([wRec1], wRec1)) ∧
    (wRec1.account_status = "in-active" ∧ wRec1.fully_activated = false ∧
      [wRec1] = [] ++ [wRec1]) :=
  ⟨rfl,
    claim_C10_inactive_defaults [] wUser (some code12) (fun _ _ => 0) 1
      none none none [wRec1] wRec1 rfl⟩

/-! ## Claim theorems: profile update orchestration -/

theorem recomputeSiblings_all_true (store : List StudentRec) (pid : Nat)
    (hgt : 1 < (store.filter (fun r => r.parent == pid)).length) :
    ∀ r ∈ recomputeSiblings store pid, r.parent = pid → r.has_sibling = true := by
  intro r hr hp
  unfold recomputeSiblings at hr
  rw [if_pos hgt] at hr
  obtain ⟨r0, hr0, rfl⟩ := List.mem_map.mp hr
  by_cases hb : r0.parent = pid
  · have hbeq : (r0.parent == pid) = true := by simp [hb]
    simp [hbeq]
  · have hbeq : (r0.parent == pid) = false := by simp [hb]
    simp only [hbeq, Bool.false_eq_true, if_false] at hp
    exact absurd hp hb

theorem recomputeSiblings_single (store : List StudentRec) (pid : Nat)
    (h1 : ¬ 1 < (store.filter (fun r => r.parent == pid)).length) :
    recomputeSiblings store pid = store := by
  unfold recomputeSiblings
  rw [if_neg h1]

/-- C6: when the profile-update flow performs a nested student creation,
the final student table is the created table with sibling flags
recomputed: if the parent then owns more than one student, every one of
the parent's records (including ones created earlier with
`has_sibling = false`) ends the call with `has_sibling = true`; if the
parent owns exactly one student, no flag update is performed and the
table is left as the creation produced it. -/
theorem claim_C6_sibling_recompute {P : Type} (st : AppState P) (newProfile : P)
    (f0 l0 g0 : Option String) (user : UserRec) (school_code : Option PyStr)
    (rand : Nat → Nat → Fin 10) (fuel : Nat) (s : StudentRec) (st1 : AppState P)
    (h : profileUpdate st true newProfile true f0 l0 g0 user school_code rand fuel =
      some (.okCreated s, st1)) :
    ∃ mid : List StudentRec,
      create_student_account st.students user school_code rand fuel f0 l0 g0 =
        some (.ok (mid, s)) ∧
      st1.students = recomputeSiblings mid user.id ∧
      (1 < (mid.filter (fun r => r.parent == user.id)).length →
        ∀ r ∈ st1.students, r.parent = user.id → r.has_sibling = true) ∧
      ((mid.filter (fun r => r.parent == user.id)).length = 1 →
        st1.students = mid) := by
  simp only [profileUpdate, Bool.not_true, Bool.false_eq_true, if_false, if_true] at h
  cases hc : create_student_account st.students user school_code rand fuel f0 l0 g0 with
  | none =>
    rw [hc] at h
    cases h
  | some r =>
    cases r with
    | error e =>
      rw [hc] at h
      simp at h
    | ok pr =>
      obtain ⟨mid, created⟩ := pr
      rw [hc] at h
      simp only [Option.some.injEq, Prod.mk.injEq, UpdateOutcome.okCreated.injEq] at h
      obtain ⟨hcs, hst⟩ := h
      subst hcs
      refine ⟨mid, rfl, ?_, ?_, ?_⟩
      · rw [← hst]
      · intro hgt r hr hp
        rw [← hst] at hr
        exact recomputeSiblings_all_true mid user.id hgt r hr hp
      · intro hone
        rw [← hst]
        exact recomputeSiblings_single mid user.id (by omega)

/-- Witness for C6: a profile update with nested creation for `wUser`,
who already owns `wRec1`; afterwards both records carry
`has_sibling = true`. -/
theorem claim_C6_witness :
    profileUpdate ({ profile := 0, students := [wRec1] } : AppState Nat) true 1 true
        none none none wUser (some code12) (fun _ _ => 1) 1 =
      some (.okCreated wRec2,
        { profile := 1,
          students := [{ wRec1 with has_sibling := true }, wRec2] }) ∧
    (∃ mid : List StudentRec,
      create_student_account [wRec1] wUser (some code12) (fun _ _ => 1) 1
          none none none = some (.ok (mid, wRec2)) ∧
      [{ wRec1 with has_sibling := true }, wRec2] = recomputeSiblings mid wUser.id ∧
      (1 < (mid.filter (fun r => r.parent == wUser.id)).length →
        ∀ r ∈ [{ wRec1 with has_sibling := true }, wRec2],
          r.parent = wUser.id → r.has_sibling = true) ∧
      ((mid.filter (fun r => r.parent == wUser.id)).length = 1 →
        [{ wRec1 with has_sibling := true }, wRec2] = mid)) :=
  ⟨rfl,
    claim_C6_sibling_recompute ({ profile := 0, students := [wRec1] } : AppState Nat)
      1 none none none wUser (some code12) (fun _ _ => 1) 1 wRec2
      { profile := 1, students := [{ wRec1 with has_sibling := true }, wRec2] } rfl⟩

/-- C7: in the profile-update flow with a nested student-creation
request, a failure of the enrollment step (a raised validation error)
aborts the whole atomic unit: the returned state is exactly the entry
state — the profile change from the same request is not persisted and no
student row is left behind. -/
theorem claim_C7_rollback {P : Type} (st : AppState P) (newProfile : P)
    (f0 l0 g0 : Option String) (user : UserRec) (school_code : Option PyStr)
    (rand : Nat → Nat → Fin 10) (fuel : Nat) (e : String)
    (hfail : create_student_account st.students user school_code rand fuel f0 l0 g0 =
      some (.error e)) :
    profileUpdate st true newProfile true f0 l0 g0 user school_code rand fuel =
      some (.errorResp e, st) := by
  simp [profileUpdate, hfail]

/-- Witness for C7: an invalid nested gender makes enrollment fail, and
the update flow returns the entry state untouched (profile still `0`, no
student row). -/
theorem claim_C7_witness :
    create_student_account ({ profile := 0, students := [] } : AppState Nat).students
        wUser (some code12) (fun _ _ => 0) 1 none none (some "alien") =
      some (.error msgInvalidGender) ∧
    profileUpdate ({ profile := 0, students := [] } : AppState Nat) true 1 true
        none none (some "alien") wUser (some code12) (fun _ _ => 0) 1 =
      some (.errorResp msgInvalidGender, { profile := 0, students := [] }) :=
  ⟨rfl,
    claim_C7_rollback ({ profile := 0, students := [] } : AppState Nat) 1
      none none (some "alien") wUser (some code12) (fun _ _ => 0) 1
      msgInvalidGender rfl⟩

end SchoolCore
